import Mathlib

/-!
Shallow embedding of `pyvmg.py` (rctay/pyvmg), a converter for legacy `.vmg`
SMS archive files.  Strings are modelled as `List Char` (Python 2 `str`).
Each definition mirrors one function / method of the source file; regular
-expression searches are modelled by explicit leftmost-match scanners for the
three concrete patterns the program compiles, and `datetime.strptime` with the
fixed format `%Y%m%dT%H%M%SZ` is modelled by the backtracking field matchers
CPython's `_strptime` compiles that format to.
-/

set_option maxRecDepth 8192

abbrev Str := List Char

/-! ### `escapexml` (pyvmg.py lines 5-10)

Python's `str.replace` with a single-character pattern substitutes every
occurrence of that character independently, which is exactly per-character
substitution. -/

/-- One Python `str.replace(c, r)` call for a single-character pattern `c`. -/
def strReplaceChar (c : Char) (r : Str) : Str → Str
  | [] => []
  | a :: as => (if a = c then r else [a]) ++ strReplaceChar c r as

/-- `escapexml`: four sequential replacements, each on the result of the
previous one, in the source's order `&`, `<`, `>`, `"`. -/
def escapexml (xmldata : Str) : Str :=
  let x1 := strReplaceChar '&' (("&amp;").data) xmldata
  let x2 := strReplaceChar '<' (("&lt;").data) x1
  let x3 := strReplaceChar '>' (("&gt;").data) x2
  strReplaceChar '\"' (("&quot;").data) x3

/-! ### `datetime.datetime` values and their order -/

/-- A naive `datetime.datetime` value (second precision, as the program uses). -/
structure DT where
  year : Nat
  month : Nat
  day : Nat
  hour : Nat
  minute : Nat
  second : Nat
deriving DecidableEq, Repr

/-- `datetime.datetime(1970, 1, 1, 0, 0)`, the program's epoch default. -/
def epochDT : DT := ⟨1970, 1, 1, 0, 0, 0⟩

/-- Python `datetime` comparison: lexicographic on
(year, month, day, hour, minute, second). -/
def dtLtB (a b : DT) : Bool :=
  decide (a.year < b.year ∨ (a.year = b.year ∧ (a.month < b.month ∨ (a.month = b.month ∧
    (a.day < b.day ∨ (a.day = b.day ∧ (a.hour < b.hour ∨ (a.hour = b.hour ∧
    (a.minute < b.minute ∨ (a.minute = b.minute ∧ a.second < b.second))))))))))

/-- Non-strict `datetime` comparison. -/
def dtLeB (a b : DT) : Bool := dtLtB a b || a == b

/-! ### Regular-expression search

`re.search` tries the pattern at every start position from the left and
returns the first position where the pattern matches.  `reSearch matchAt s`
does the same given the per-position matcher `matchAt`. -/

/-- Leftmost-match scan: try `matchAt` at position 0, 1, ... (the final empty
suffix included, as `re.search` also tries the end-of-string position). -/
def reSearch {α : Type} (matchAt : Str → Option α) : Str → Option α
  | [] => matchAt []
  | a :: rest =>
    match matchAt (a :: rest) with
    | some r => some r
    | none => reSearch matchAt rest

/-- Matcher for `TEL:(\+?\d+)` at one position: the literal `TEL:`, then a
greedy optional `+` which must be followed by at least one digit (if `+` is
present but no digit follows, backtracking drops the `+` and then fails,
because `+` itself is not a digit).  The capture is `\+?\d+` with the digit
run maximal (greedy, nothing follows it in the pattern). -/
def telMatchAt (s : Str) : Option Str :=
  if (("TEL:").data).isPrefixOf s then
    match s.drop 4 with
    | '+' :: r2 =>
      let ds := r2.takeWhile Char.isDigit
      if ds = [] then none else some ('+' :: ds)
    | r2 =>
      let ds := r2.takeWhile Char.isDigit
      if ds = [] then none else some ds
  else none

/-- Character class `[\dTZ]` of the `X-NOK-DT` pattern. -/
def nokClassChar (c : Char) : Bool := c.isDigit || c == 'T' || c == 'Z'

/-- Matcher for `X-NOK-DT:([\dTZ]+)` at one position: the literal, then a
maximal non-empty run of `[\dTZ]` characters (greedy, end of pattern). -/
def dateMatchAt (s : Str) : Option Str :=
  if (("X-NOK-DT:").data).isPrefixOf s then
    let run := (s.drop 9).takeWhile nokClassChar
    if run = [] then none else some run
  else none

/-- Character class `[\d.: ]` of the body pattern. -/
def bodyClassChar (c : Char) : Bool := c.isDigit || c == '.' || c == ':' || c == ' '

/-- The prefix of `s` ending just before the LAST occurrence of `pat` in `s`
(none when `pat` does not occur).  This is what the greedy `(.*)` with
`re.DOTALL` captures when the pattern continues with the literal `pat`. -/
def lastSplitBefore (pat : Str) : Str → Option Str
  | [] => if pat.isPrefixOf ([] : Str) then some [] else none
  | a :: rest =>
    match lastSplitBefore pat rest with
    | some c => some (a :: c)
    | none => if pat.isPrefixOf (a :: rest) then some [] else none

/-- Matcher for `Date:[\d.: ]+\n(.*)END:VBODY` (with `re.DOTALL`) at one
position: the literal `Date:`, a non-empty maximal run of `[\d.: ]` characters
(any backtracked shorter run would be followed by a class character, never by
`\n`, so the maximal run is the only candidate), the newline, then the greedy
dot-all capture running to the last occurrence of `END:VBODY`. -/
def bodyMatchAt (s : Str) : Option Str :=
  if (("Date:").data).isPrefixOf s then
    let r := s.drop 5
    let run := r.takeWhile bodyClassChar
    if run = [] then none
    else
      match r.drop run.length with
      | '\n' :: tail => lastSplitBefore (("END:VBODY").data) tail
      | _ => none
  else none

/-! ### `datetime.datetime.strptime(-, "%Y%m%dT%H%M%SZ")`

CPython compiles the format to the regex
`(?P<Y>\d\d\d\d)(?P<m>1[0-2]|0[1-9]|[1-9])(?P<d>3[01]|[12]\d|0[1-9]|[1-9])T`
`(?P<H>2[0-3]|[0-1]\d|\d)(?P<M>[0-5]\d|\d)(?P<S>6[0-1]|[0-5]\d|\d)Z`
(case-insensitive), takes the first match in backtracking-priority order,
raises `ValueError` when there is no match or when input remains after the
match, and finally `datetime(...)` validates the field values (this rejects
year 0, day > days-in-month, and the leap seconds 60/61 the regex admits).
Every `ValueError` path is modelled by `none`. -/

/-- Numeric value of a decimal digit character. -/
def digitVal (c : Char) : Nat := c.toNat - ('0').toNat

/-- `%Y`, regex `\d\d\d\d`: exactly four digits. -/
def matchY : Str → List (Nat × Str)
  | a :: b :: c :: d :: r =>
    if a.isDigit && b.isDigit && c.isDigit && d.isDigit then
      [(digitVal a * 1000 + digitVal b * 100 + digitVal c * 10 + digitVal d, r)]
    else []
  | _ => []

/-- `%m`, regex `1[0-2]|0[1-9]|[1-9]`, alternatives in priority order. -/
def matchm (s : Str) : List (Nat × Str) :=
  (match s with
    | '1' :: c :: r => if c.isDigit && digitVal c ≤ 2 then [(10 + digitVal c, r)] else []
    | _ => []) ++
  (match s with
    | '0' :: c :: r => if c.isDigit && 1 ≤ digitVal c then [(digitVal c, r)] else []
    | _ => []) ++
  (match s with
    | c :: r => if c.isDigit && 1 ≤ digitVal c then [(digitVal c, r)] else []
    | _ => [])

/-- `%d`, regex `3[01]|[12]\d|0[1-9]|[1-9]`, alternatives in priority order. -/
def matchd (s : Str) : List (Nat × Str) :=
  (match s with
    | '3' :: c :: r => if c.isDigit && digitVal c ≤ 1 then [(30 + digitVal c, r)] else []
    | _ => []) ++
  (match s with
    | a :: c :: r =>
      if (a == '1' || a == '2') && c.isDigit then [(digitVal a * 10 + digitVal c, r)] else []
    | _ => []) ++
  (match s with
    | '0' :: c :: r => if c.isDigit && 1 ≤ digitVal c then [(digitVal c, r)] else []
    | _ => []) ++
  (match s with
    | c :: r => if c.isDigit && 1 ≤ digitVal c then [(digitVal c, r)] else []
    | _ => [])

/-- `%H`, regex `2[0-3]|[0-1]\d|\d`, alternatives in priority order. -/
def matchH (s : Str) : List (Nat × Str) :=
  (match s with
    | '2' :: c :: r => if c.isDigit && digitVal c ≤ 3 then [(20 + digitVal c, r)] else []
    | _ => []) ++
  (match s with
    | a :: c :: r =>
      if (a == '0' || a == '1') && c.isDigit then [(digitVal a * 10 + digitVal c, r)] else []
    | _ => []) ++
  (match s with
    | c :: r => if c.isDigit then [(digitVal c, r)] else []
    | _ => [])

/-- `%M`, regex `[0-5]\d|\d`, alternatives in priority order. -/
def matchM (s : Str) : List (Nat × Str) :=
  (match s with
    | a :: c :: r =>
      if a.isDigit && digitVal a ≤ 5 && c.isDigit then [(digitVal a * 10 + digitVal c, r)] else []
    | _ => []) ++
  (match s with
    | c :: r => if c.isDigit then [(digitVal c, r)] else []
    | _ => [])

/-- `%S`, regex `6[0-1]|[0-5]\d|\d`, alternatives in priority order. -/
def matchS (s : Str) : List (Nat × Str) :=
  (match s with
    | '6' :: c :: r => if c.isDigit && digitVal c ≤ 1 then [(60 + digitVal c, r)] else []
    | _ => []) ++
  (match s with
    | a :: c :: r =>
      if a.isDigit && digitVal a ≤ 5 && c.isDigit then [(digitVal a * 10 + digitVal c, r)] else []
    | _ => []) ++
  (match s with
    | c :: r => if c.isDigit then [(digitVal c, r)] else []
    | _ => [])

/-- A literal letter of the format; `_strptime` compiles the regex with
`re.IGNORECASE`, so both cases match. -/
def matchLit (u l : Char) : Str → List Str
  | c :: r => if c == u || c == l then [r] else []
  | _ => []

/-- All complete matches of the compiled `%Y%m%dT%H%M%SZ` regex against a
prefix of `s`, as (parsed fields, remaining input) pairs in
backtracking-priority order.  `re.match` returns the first one. -/
def reMatchDT (s : Str) : List (DT × Str) :=
  (matchY s).flatMap fun y =>
  (matchm y.2).flatMap fun mo =>
  (matchd mo.2).flatMap fun dy =>
  (matchLit 'T' 't' dy.2).flatMap fun r4 =>
  (matchH r4).flatMap fun h =>
  (matchM h.2).flatMap fun mi =>
  (matchS mi.2).flatMap fun sec =>
  (matchLit 'Z' 'z' sec.2).map fun r8 =>
  (⟨y.1, mo.1, dy.1, h.1, mi.1, sec.1⟩, r8)

/-- Gregorian leap-year rule used by `datetime`. -/
def isLeap (y : Nat) : Bool := y % 4 == 0 && (y % 100 != 0 || y % 400 == 0)

/-- Days in a month, as validated by the `datetime` constructor. -/
def daysInMonth (y m : Nat) : Nat :=
  if m = 2 then (if isLeap y then 29 else 28)
  else if m = 4 || m = 6 || m = 9 || m = 11 then 30
  else 31

/-- The validation performed by the `datetime.datetime` constructor on the
fields delivered by `time.strptime` (`datetime.strptime` in Python 2 is
`cls(*(time.strptime(s, fmt)[0:6]))`). -/
def validDT (d : DT) : Bool :=
  1 ≤ d.year && d.year ≤ 9999 && 1 ≤ d.month && d.month ≤ 12 &&
  1 ≤ d.day && d.day ≤ daysInMonth d.year d.month &&
  d.hour ≤ 23 && d.minute ≤ 59 && d.second ≤ 59

/-- `datetime.datetime.strptime(s, "%Y%m%dT%H%M%SZ")`, with every
`ValueError` (no regex match, unconverted trailing data, or constructor
rejection) modelled as `none`. -/
def strptimeDT (s : Str) : Option DT :=
  match (reMatchDT s).head? with
  | some (d, []) => if validDT d then some d else none
  | _ => none

/-! ### `VMGReader` (pyvmg.py lines 20-60) -/

/-- The record dictionary built by `VMGReader.process`.  `date = none` models
a dictionary with no `date` key (the source sets the key only when the
`X-NOK-DT` pattern matched). -/
structure Rec where
  telno : Str
  date : Option DT
  body : Str
deriving DecidableEq, Repr

/-- The mutable state of a `VMGReader` (the compiled regexes are constants;
`filename` and `message` are the attributes `read` assigns). -/
structure VMGReader where
  filename : Str
  message : Str
deriving DecidableEq, Repr

/-- `self.message.replace('\0', '')`: remove every NUL character. -/
def stripNul (s : Str) : Str := s.filter (fun c => c ≠ '\x00')

/-- `VMGReader.read`: store the filename and the NUL-stripped file text,
fully overwriting both attributes.  The file's contents are passed in
explicitly (the filesystem is external to this model). -/
def VMGReader.read (_ : VMGReader) (filename : Str) (contents : Str) : VMGReader :=
  { filename := filename, message := stripNul contents }

/-- `VMGReader.process` (pyvmg.py lines 37-60): build the record from the
three leftmost regex matches.  Note the source sets no `date` key at all when
the `X-NOK-DT` search fails, and applies `escapexml` BEFORE dropping the last
character of the body capture (`escapexml(bodymatch.group(1))[:-1]`). -/
def VMGReader.process (r : VMGReader) : Rec where
  telno :=
    match reSearch telMatchAt r.message with
    | some t => t
    | none => []
  date :=
    match reSearch dateMatchAt r.message with
    | some v =>
      some (match strptimeDT v with
        | some d => d
        | none => epochDT)
    | none => none
  body :=
    match reSearch bodyMatchAt r.message with
    | some cap => (escapexml cap).dropLast
    | none => []

/-! ### `datecmp` and `Writer.process` (pyvmg.py lines 12-18, 73-81) -/

/-- `datecmp` (pyvmg.py lines 12-18).  It reads `x['date']` and `y['date']`;
when either record lacks the key, Python raises `KeyError`, modelled as
`none`. -/
def datecmp (x y : Rec) : Option Int :=
  match x.date, y.date with
  | some a, some b => some (if dtLtB a b then -1 else if a = b then 0 else 1)
  | _, _ => none

/-- The Boolean "comparator at most 0" order that Python 2's stable
`list.sort(datecmp)` sorts by.  It is only applied to records that carry a
date (otherwise `datecmp` raises and the sort aborts, see `Writer.process`),
so the `epochDT` default of `Option.getD` is never reached there. -/
def recLe (x y : Rec) : Bool := dtLeB (x.date.getD epochDT) (y.date.getD epochDT)

/-- The loop body of `Writer.process`: one shared `VMGReader` is re-`read`
for each file and its `process` result is appended. -/
def collectLoop (r : VMGReader) (msgs : List Rec) : List (Str × Str) → List Rec
  | [] => msgs
  | f :: fs =>
    let r2 := r.read f.1 f.2
    collectLoop r2 (msgs ++ [r2.process]) fs

/-- The record list `Writer.process` accumulates before sorting, starting
from reader state `r0` (source: a fresh `VMGReader()`).  Files are given as
(filename, contents) pairs. -/
def collectFrom (r0 : VMGReader) (files : List (Str × Str)) : List Rec :=
  collectLoop r0 [] files

/-- The record list `Writer.process` accumulates before sorting. -/
def writerCollect (files : List (Str × Str)) : List Rec :=
  collectFrom ⟨[], []⟩ files

/-- `Writer.process` (pyvmg.py lines 73-81): collect one record per file,
then `self.messages.sort(datecmp)` — Python 2's stable sort under the
comparator, modelled by `List.mergeSort` under `recLe`.  When some record
lacks the `date` key, `datecmp` raises `KeyError` out of the sort, modelled
as `none`. -/
def writerProcess (files : List (Str × Str)) : Option (List Rec) :=
  let msgs := writerCollect files
  if msgs.all (fun r => r.date.isSome) then some (msgs.mergeSort recLe) else none

/-! ### `TextWriter.write` (pyvmg.py lines 119-127) -/

/-- Decimal digits of `n`, left-padded with `'0'` to width `k`. -/
def padNum (k n : Nat) : Str :=
  let ds := Nat.toDigits 10 n
  List.replicate (k - ds.length) '0' ++ ds

/-- The text produced by `strftime('%Y-%m-%d %H:%M:%S')` on a valid
`datetime`: zero-padded fields, `YYYY-MM-DD HH:MM:SS`. -/
def dtFormat (d : DT) : Str :=
  padNum 4 d.year ++ ('-' :: padNum 2 d.month) ++ ('-' :: padNum 2 d.day) ++
  (' ' :: padNum 2 d.hour) ++ (':' :: padNum 2 d.minute) ++ (':' :: padNum 2 d.second)

/-- Python 2's `datetime.strftime` raises
`ValueError: year=... is before 1900; the datetime strftime() methods
require year >= 1900` for earlier years (`wrap_strftime` in CPython 2),
modelled as `none`. -/
def strftimeFmt (d : DT) : Option Str :=
  if 1900 ≤ d.year then some (dtFormat d) else none

/-- One output block of `TextWriter.write`:
`"%s - %s\n%s\n\n" % (telno, formatted date, body)`. -/
def msgBlock (r : Rec) (ds : Str) : Str :=
  r.telno ++ ((" - ").data) ++ ds ++ ('\n' :: r.body) ++ (('\n') :: ('\n') :: [])

/-- `TextWriter.write` (pyvmg.py lines 119-127): skip records with empty
`telno` (before the date is ever touched), otherwise format the block and
append it.  A missing `date` key (`KeyError`) or a pre-1900 year
(`ValueError` in `strftime`) raises, modelled as `none`. -/
def textWrite : List Rec → Option Str
  | [] => some []
  | m :: rest =>
    if m.telno = [] then textWrite rest
    else
      match m.date with
      | some d =>
        match strftimeFmt d with
        | some ds => (textWrite rest).map (fun t => msgBlock m ds ++ t)
        | none => none
      | none => none

example : escapexml (("<a & b>").data) = ("&lt;a &amp; b&gt;").data := by decide

example : (VMGReader.process ⟨[], (("X-NOK-DT:20080526T124232Z").data)⟩).date =
    some ⟨2008, 5, 26, 12, 42, 32⟩ := by decide

/-! ## Helper lemmas -/

/-- `strReplaceChar` distributes over append. -/
theorem strReplaceChar_append (c : Char) (r xs ys : Str) :
    strReplaceChar c r (xs ++ ys) = strReplaceChar c r xs ++ strReplaceChar c r ys := by
  induction xs with
  | nil => rfl
  | cons a as ih => simp [strReplaceChar, ih]

/-- `escapexml` distributes over append (it is a per-character substitution). -/
theorem escapexml_append (xs ys : Str) :
    escapexml (xs ++ ys) = escapexml xs ++ escapexml ys := by
  simp [escapexml, strReplaceChar_append]

/-- `dtLeB` is reflexive. -/
theorem dtLeB_refl (a : DT) : dtLeB a a = true := by
  simp [dtLeB]

/-- `dtLeB` is total. -/
theorem dtLeB_total (a b : DT) : (dtLeB a b || dtLeB b a) = true := by
  cases a; cases b
  simp [dtLeB, dtLtB, DT.mk.injEq]
  omega

/-- `dtLeB` is transitive. -/
theorem dtLeB_trans (a b c : DT) (h1 : dtLeB a b = true) (h2 : dtLeB b c = true) :
    dtLeB a c = true := by
  cases a; cases b; cases c
  simp [dtLeB, dtLtB, DT.mk.injEq] at h1 h2 ⊢
  omega

/-- `recLe` is total. -/
theorem recLe_total (a b : Rec) : (recLe a b || recLe b a) = true := by
  simp only [recLe]
  exact dtLeB_total _ _

/-- `recLe` is transitive. -/
theorem recLe_trans (a b c : Rec) (h1 : recLe a b) (h2 : recLe b c) : recLe a c := by
  simp only [recLe] at h1 h2 ⊢
  exact dtLeB_trans _ _ _ h1 h2

/-- `dtLtB` is irreflexive. -/
theorem dtLtB_irrefl (a : DT) : dtLtB a a = false := by
  simp [dtLtB]

/-- On records that both carry a date, `recLe` agrees with
"`datecmp` returns a non-positive comparison value". -/
theorem recLe_iff_datecmp (x y : Rec) (a b : DT) (hx : x.date = some a) (hy : y.date = some b) :
    recLe x y = true ↔ ∃ v, datecmp x y = some v ∧ v ≤ 0 := by
  simp only [recLe, datecmp, hx, hy, Option.getD_some, dtLeB]
  constructor
  · intro h
    rcases (Bool.or_eq_true _ _).mp h with h | h
    · exact ⟨-1, by simp [h], by norm_num⟩
    · have hab : a = b := by simpa using h
      subst hab
      exact ⟨0, by simp [dtLtB_irrefl], by norm_num⟩
  · rintro ⟨v, hv, hle⟩
    by_cases hlt : dtLtB a b = true
    · simp [hlt]
    · by_cases heq : a = b
      · simp [heq]
      · exfalso
        simp [hlt, heq] at hv
        omega

/-- The collection loop of `Writer.process` is a `map` over the files: the
shared reader state is fully overwritten by `read` before each `process`. -/
theorem collectLoop_eq_map (fs : List (Str × Str)) :
    ∀ (r : VMGReader) (acc : List Rec),
      collectLoop r acc fs =
        acc ++ fs.map (fun p => VMGReader.process ⟨p.1, stripNul p.2⟩) := by
  induction fs with
  | nil => intro r acc; simp [collectLoop]
  | cons f fs ih =>
    intro r acc
    simp [collectLoop, VMGReader.read, ih]

/-- `collectFrom` ignores the initial reader state. -/
theorem collectFrom_eq_map (r0 : VMGReader) (fs : List (Str × Str)) :
    collectFrom r0 fs = fs.map (fun p => VMGReader.process ⟨p.1, stripNul p.2⟩) := by
  simp [collectFrom, collectLoop_eq_map]

/-- `VMGReader.process` never reads the stored filename. -/
theorem process_filename_irrel (a b m : Str) :
    VMGReader.process ⟨a, m⟩ = VMGReader.process ⟨b, m⟩ := rfl

/-! ## Claim theorems -/

/-- C8: `escapexml` performs exactly four substring replacements in order —
`&`→`&amp;`, then `<`→`&lt;`, then `>`→`&gt;`, then `"`→`&quot;` — each
applied to the result of the previous step; in particular
`escapexml("<a & b>") = "&lt;a &amp; b&gt;"`, and the entities introduced by
the later replacements are not re-escaped by the `&` rule within the same
pass (the `&` of `&lt;`, `&gt;`, `&quot;` survives untouched). -/
theorem c8_escapexml_order :
    (∀ s : Str, escapexml s =
      strReplaceChar '\"' (("&quot;").data)
        (strReplaceChar '>' (("&gt;").data)
          (strReplaceChar '<' (("&lt;").data)
            (strReplaceChar '&' (("&amp;").data) s)))) ∧
    escapexml (("<a & b>").data) = ("&lt;a &amp; b&gt;").data ∧
    escapexml (("<").data) = ("&lt;").data ∧
    escapexml ((">").data) = ("&gt;").data ∧
    escapexml (("\"").data) = ("&quot;").data ∧
    escapexml (("&").data) = ("&amp;").data :=
  ⟨fun _ => rfl, by decide, by decide, by decide, by decide, by decide⟩

/-- C1: the claim asserts the timestamp is ALWAYS present, with the Unix
epoch default both when the `X-NOK-DT` capture fails strict parsing and when
no `X-NOK-DT` match exists.  The code violates the second half: `process`
has no `else` branch for a failed `X-NOK-DT` search, so the returned
dictionary simply has no `date` key (modelled as `none`) — the in-code
comment "Use Epoch as date if no date was available" and every downstream
use (`datecmp`, the writers' `msg['date']`) expect the key, so the claim
reflects the intent and the missing branch is the slip.  The parse-failure
half does hold (last conjunct). -/
theorem c1_missing_date_key :
    (VMGReader.process ⟨[], []⟩).date = none ∧
    (VMGReader.process ⟨[], (("no stamp at all").data)⟩).date = none ∧
    (VMGReader.process ⟨[], (("X-NOK-DT:9").data)⟩).date = some epochDT := by
  decide

/-- C2: whenever the body pattern `Date:[\d.: ]+\n(.*)END:VBODY` matches,
the stored body is the XML-escaped capture with one final character dropped
(`escapexml(bodymatch.group(1))[:-1]`); with no match the body is the empty
string. -/
theorem c2_body_extraction (s : Str) :
    (∀ cap, reSearch bodyMatchAt s = some cap →
      (VMGReader.process ⟨[], s⟩).body = (escapexml cap).dropLast) ∧
    (reSearch bodyMatchAt s = none → (VMGReader.process ⟨[], s⟩).body = []) := by
  constructor
  · intro cap h
    simp [VMGReader.process, h]
  · intro h
    simp [VMGReader.process, h]

/-- Witness for C2: a matching input (capture `abX`, body `ab`) and a
non-matching input (body empty). -/
theorem c2_witness :
    (VMGReader.process ⟨[], (("Date:1\nabXEND:VBODY").data)⟩).body =
      (escapexml (("abX").data)).dropLast ∧
    (VMGReader.process ⟨[], (("no body marker").data)⟩).body = [] :=
  ⟨(c2_body_extraction (("Date:1\nabXEND:VBODY").data)).1 (("abX").data) (by decide),
   (c2_body_extraction (("no body marker").data)).2 (by decide)⟩

/-- C3: the escaping runs BEFORE the final-character trim, so when the
captured body ends in one of `& < > "` the stored body ends in the entity
with its `;` cut off: the body is the escaped prefix followed by the
truncated entity of the final raw character. -/
theorem c3_truncated_entity (s cap : Str) (c : Char)
    (h : reSearch bodyMatchAt s = some (cap ++ [c]))
    (hc : c = '&' ∨ c = '<' ∨ c = '>' ∨ c = '\"') :
    (VMGReader.process ⟨[], s⟩).body = escapexml cap ++ (escapexml [c]).dropLast := by
  have hb : (VMGReader.process ⟨[], s⟩).body = (escapexml (cap ++ [c])).dropLast := by
    simp [VMGReader.process, h]
  have hne : escapexml [c] ≠ [] := by
    rcases hc with rfl | rfl | rfl | rfl <;> decide
  rw [hb, escapexml_append, List.dropLast_append_of_ne_nil _ hne]

/-- Witness for C3: a captured body ending in `"` yields a stored body
ending in `&quot` without its `;`. -/
theorem c3_witness :
    (VMGReader.process ⟨[], (("Date:1\nab\"END:VBODY").data)⟩).body =
      escapexml (("ab").data) ++ (escapexml ['\"']).dropLast :=
  c3_truncated_entity (("Date:1\nab\"END:VBODY").data) (("ab").data) '\"'
    (by decide) (by simp)

/-- C4 counterexample: this text CONTAINS the substring
`X-NOK-DT:20080526T124232Z`, but `re.search` uses the LEFTMOST match of the
pattern, here `X-NOK-DT:0`, whose capture `0` fails strict parsing, so the
timestamp is the epoch, not 2008-05-26 12:42:32.  The claim as universally
stated is therefore false. -/
theorem c4_counterexample :
    List.IsInfix (("X-NOK-DT:20080526T124232Z").data)
      (("X-NOK-DT:0 X-NOK-DT:20080526T124232Z").data) ∧
    (VMGReader.process ⟨[], (("X-NOK-DT:0 X-NOK-DT:20080526T124232Z").data)⟩).date =
      some epochDT ∧
    epochDT ≠ (⟨2008, 5, 26, 12, 42, 32⟩ : DT) := by
  decide

/-- C4 amended: for every input text whose LEFTMOST `X-NOK-DT:([\dTZ]+)`
match captures exactly `20080526T124232Z`, the timestamp equals
2008-05-26 12:42:32. -/
theorem c4_first_stamp (s : Str)
    (h : reSearch dateMatchAt s = some (("20080526T124232Z").data)) :
    (VMGReader.process ⟨[], s⟩).date = some (⟨2008, 5, 26, 12, 42, 32⟩ : DT) := by
  simp [VMGReader.process, h]
  decide

/-- Witness for C4: a text whose only `X-NOK-DT` occurrence carries the
stamp. -/
theorem c4_witness :
    (VMGReader.process ⟨[], (("BEGIN:VMSG\nX-NOK-DT:20080526T124232Z\nx").data)⟩).date =
      some (⟨2008, 5, 26, 12, 42, 32⟩ : DT) :=
  c4_first_stamp (("BEGIN:VMSG\nX-NOK-DT:20080526T124232Z\nx").data) (by decide)

/-- C5 counterexample: this text CONTAINS the substring `TEL:+15551234567`,
but the greedy digit run of the leftmost `TEL:(\+?\d+)` match captures the
longer `+155512345678`, so the extracted phone number differs from the one
the claim asserts. -/
theorem c5_counterexample :
    List.IsInfix (("TEL:+15551234567").data) (("TEL:+155512345678").data) ∧
    (VMGReader.process ⟨[], (("TEL:+155512345678").data)⟩).telno =
      ("+155512345678").data ∧
    ("+155512345678").data ≠ ("+15551234567").data := by
  decide

/-- C5 amended: for every input text whose LEFTMOST `TEL:(\+?\d+)` match
captures exactly `+15551234567`, the phone number is `+15551234567`; and for
every text where the pattern finds no match at all, the phone number is the
empty string. -/
theorem c5_first_tel (s : Str) :
    (reSearch telMatchAt s = some (("+15551234567").data) →
      (VMGReader.process ⟨[], s⟩).telno = ("+15551234567").data) ∧
    (reSearch telMatchAt s = none → (VMGReader.process ⟨[], s⟩).telno = []) := by
  constructor
  · intro h
    simp [VMGReader.process, h]
  · intro h
    simp [VMGReader.process, h]

/-- Witness for C5: a matching text (the stamp is the only `TEL:` pattern
occurrence, delimited by a non-digit) and a text with no `TEL:` match. -/
theorem c5_witness :
    (VMGReader.process ⟨[], (("a\nTEL:+15551234567\nb").data)⟩).telno =
      ("+15551234567").data ∧
    (VMGReader.process ⟨[], (("no phone number").data)⟩).telno = [] :=
  ⟨(c5_first_tel (("a\nTEL:+15551234567\nb").data)).1 (by decide),
   (c5_first_tel (("no phone number").data)).2 (by decide)⟩

/-- C9: `VMGReader.process` is a total function of the (NUL-stripped) input
text — in this embedding it is a Lean function, so it returns a record on
every input; exceptions cannot escape it in the source either, since the
only raising operation, `strptime`, sits inside `try/except ValueError`.
The three documented degradations hold: a failed `TEL` search yields the
empty phone number, a captured-but-unparseable `X-NOK-DT` value yields the
epoch timestamp, and a failed body search yields the empty body. -/
theorem c9_never_raises (m : Str) :
    (reSearch telMatchAt m = none → (VMGReader.process ⟨[], m⟩).telno = []) ∧
    (∀ v, reSearch dateMatchAt m = some v → strptimeDT v = none →
      (VMGReader.process ⟨[], m⟩).date = some epochDT) ∧
    (reSearch bodyMatchAt m = none → (VMGReader.process ⟨[], m⟩).body = []) := by
  refine ⟨?_, ?_, ?_⟩
  · intro h
    simp [VMGReader.process, h]
  · intro v hv hp
    simp [VMGReader.process, hv, hp]
  · intro h
    simp [VMGReader.process, h]

/-- Witness for C9: on `X-NOK-DT:TTT` the `TEL` and body searches fail and
the `X-NOK-DT` capture `TTT` fails strict parsing, so all three defaults
appear at once. -/
theorem c9_witness :
    (VMGReader.process ⟨[], (("X-NOK-DT:TTT").data)⟩).telno = [] ∧
    (VMGReader.process ⟨[], (("X-NOK-DT:TTT").data)⟩).date = some epochDT ∧
    (VMGReader.process ⟨[], (("X-NOK-DT:TTT").data)⟩).body = [] :=
  ⟨(c9_never_raises (("X-NOK-DT:TTT").data)).1 (by decide),
   (c9_never_raises (("X-NOK-DT:TTT").data)).2.1 (("TTT").data) (by decide) (by decide),
   (c9_never_raises (("X-NOK-DT:TTT").data)).2.2 (by decide)⟩

/-- C10: although `Writer.process` threads ONE shared `VMGReader` through
the whole file list, the i-th collected record (before sorting) is a
function of the i-th file's contents alone: `read` fully overwrites the
reader's state, so two runs whose i-th files have identical contents —
whatever the other files, the filenames, and even the initial reader state —
collect identical i-th records. -/
theorem c10_per_file_independence (fs fs' : List (Str × Str)) (r r' : VMGReader)
    (i : Nat) (p p' : Str × Str)
    (h1 : fs[i]? = some p) (h2 : fs'[i]? = some p') (hc : p.2 = p'.2) :
    (collectFrom r fs)[i]? = (collectFrom r' fs')[i]? := by
  rw [collectFrom_eq_map, collectFrom_eq_map, List.getElem?_map, List.getElem?_map, h1, h2]
  simp only [Option.map_some']
  rw [show VMGReader.process ⟨p.1, stripNul p.2⟩ = VMGReader.process ⟨p'.1, stripNul p'.2⟩ from
    hc ▸ process_filename_irrel p.1 p'.1 (stripNul p.2)]

/-- Witness for C10: two runs with different surrounding files, filenames
and initial reader states, but the same contents in position 0, collect the
same record there. -/
theorem c10_witness :
    (collectFrom ⟨("z").data, ("TEL:999").data⟩
        [((("a.vmg").data), (("TEL:123").data))])[0]? =
    (collectFrom ⟨[], []⟩
        [((("b.vmg").data), (("TEL:123").data)),
         (([]), (("junk").data))])[0]? :=
  c10_per_file_independence
    [((("a.vmg").data), (("TEL:123").data))]
    [((("b.vmg").data), (("TEL:123").data)), (([]), (("junk").data))]
    ⟨("z").data, ("TEL:999").data⟩ ⟨[], []⟩ 0
    ((("a.vmg").data), (("TEL:123").data)) ((("b.vmg").data), (("TEL:123").data))
    (by decide) (by decide) (by decide)

/-- C6: when `Writer.process` completes (no record is missing its date key),
the record list is a permutation of the collected records, sorted ascending
by timestamp under the `datecmp` order, and the sort is stable: the records
carrying any fixed timestamp appear in exactly their input (file) order. -/
theorem c6_stable_sort (files : List (Str × Str)) (out : List Rec)
    (h : writerProcess files = some out) :
    out.Perm (writerCollect files) ∧
    out.Pairwise (fun x y => recLe x y = true) ∧
    (∀ d : DT, out.filter (fun r => r.date == some d) =
      (writerCollect files).filter (fun r => r.date == some d)) := by
  have hout : out = (writerCollect files).mergeSort recLe := by
    unfold writerProcess at h
    by_cases hall : (writerCollect files).all (fun r => r.date.isSome) = true
    · rw [if_pos hall] at h
      exact (Option.some.inj h).symm
    · rw [if_neg hall] at h
      cases h
  subst hout
  refine ⟨List.mergeSort_perm _ _, List.sorted_mergeSort recLe_trans recLe_total _, ?_⟩
  intro d
  have hmem : ∀ x ∈ (writerCollect files).filter (fun r => r.date == some d),
      x.date = some d := by
    intro x hx
    have hx2 := (List.mem_filter.mp hx).2
    simpa using hx2
  have hpw : ((writerCollect files).filter (fun r => r.date == some d)).Pairwise
      (fun x y => recLe x y = true) := by
    apply List.pairwise_of_forall_mem_list
    intro a ha b hb
    simp [recLe, hmem a ha, hmem b hb, dtLeB_refl]
  have hsub : List.Sublist ((writerCollect files).filter (fun r => r.date == some d))
      ((writerCollect files).mergeSort recLe) :=
    List.sublist_mergeSort recLe_trans recLe_total hpw (List.filter_sublist _)
  have hsub2 := hsub.filter (fun r => r.date == some d)
  have hidem : ((writerCollect files).filter (fun r => r.date == some d)).filter
      (fun r => r.date == some d) =
      (writerCollect files).filter (fun r => r.date == some d) :=
    List.filter_eq_self.mpr (fun a ha => (List.mem_filter.mp ha).2)
  rw [hidem] at hsub2
  have hperm : List.Perm
      (((writerCollect files).mergeSort recLe).filter (fun r => r.date == some d))
      ((writerCollect files).filter (fun r => r.date == some d)) :=
    (List.mergeSort_perm _ _).filter _
  exact (hsub2.eq_of_length hperm.length_eq.symm).symm

/-- Concrete two-file batch for the C6 witness (dates 1999 and 2008, already
in ascending order). -/
def c6files : List (Str × Str) :=
  [(([]), (("X-NOK-DT:19990101T000000Z").data)),
   (([]), (("X-NOK-DT:20080526T124232Z").data))]

/-- The record of the first C6 witness file. -/
def rec99 : Rec := ⟨[], some ⟨1999, 1, 1, 0, 0, 0⟩, []⟩

/-- The record of the second C6 witness file. -/
def rec08 : Rec := ⟨[], some ⟨2008, 5, 26, 12, 42, 32⟩, []⟩

/-- Witness for C6 on a concrete two-file batch. -/
theorem c6_witness :
    ([rec99, rec08] : List Rec).Perm (writerCollect c6files) ∧
    ([rec99, rec08] : List Rec).Pairwise (fun x y => recLe x y = true) ∧
    ([rec99, rec08] : List Rec).filter (fun r => r.date == some epochDT) =
      (writerCollect c6files).filter (fun r => r.date == some epochDT) := by
  have hcol : writerCollect c6files = [rec99, rec08] := by decide
  have hp : writerProcess c6files = some [rec99, rec08] := by
    unfold writerProcess
    rw [hcol, if_pos (by decide), List.mergeSort_of_sorted (by decide)]
  exact ⟨(c6_stable_sort c6files [rec99, rec08] hp).1,
         (c6_stable_sort c6files [rec99, rec08] hp).2.1,
         (c6_stable_sort c6files [rec99, rec08] hp).2.2 epochDT⟩

/-- C7 counterexample: the claim promises the block for EVERY record with a
non-empty phone number, but Python 2's `datetime.strftime` raises
`ValueError` for years before 1900 (`wrap_strftime`), so a record whose
timestamp year is 1899 makes `TextWriter.write` raise instead of emitting
its block. -/
theorem c7_counterexample :
    textWrite [⟨("+15551234567").data, some ⟨1899, 12, 31, 0, 0, 0⟩, ("x").data⟩] =
      none := by
  decide

/-- C7 amended: for every record list in which each record with a non-empty
phone number carries a timestamp of year at least 1900 (Python 2's
`strftime` restriction), `TextWriter.write` emits, per record with non-empty
`telno`, exactly the block `PHONE - TIMESTAMP\nBODY\n\n` (timestamp
formatted `YYYY-MM-DD HH:MM:SS`), and nothing at all for a record with empty
`telno`; a record with non-empty `telno` and empty body contributes the
phone/date line followed by one blank body line. -/
theorem c7_blocks (msgs : List Rec)
    (h : ∀ r ∈ msgs, r.telno ≠ [] → ∃ d, r.date = some d ∧ 1900 ≤ d.year) :
    textWrite msgs = some (msgs.foldr (fun r acc =>
      (if r.telno = [] then []
       else msgBlock r ((r.date.map dtFormat).getD [])) ++ acc) []) := by
  induction msgs with
  | nil => rfl
  | cons m rest ih =>
    have hrest := ih (fun r hr => h r (List.mem_cons_of_mem _ hr))
    by_cases ht : m.telno = []
    · simp [textWrite, ht, hrest]
    · obtain ⟨d, hd, hy⟩ := h m (List.mem_cons_self _ _) ht
      simp [textWrite, ht, hd, strftimeFmt, hy, hrest, Option.getD_some, Option.map_some']

/-- Concrete record list for the C7 witness: one full record, one
empty-phone record (skipped), one empty-body record. -/
def c7msgs : List Rec :=
  [⟨("+15551234567").data, some ⟨2008, 5, 26, 12, 42, 32⟩, ("hi").data⟩,
   ⟨[], none, ("noise").data⟩,
   ⟨("+2000").data, some ⟨2009, 1, 1, 0, 0, 0⟩, []⟩]

/-- Witness for C7 on a concrete record list. -/
theorem c7_witness :
    textWrite c7msgs = some (c7msgs.foldr (fun r acc =>
      (if r.telno = [] then []
       else msgBlock r ((r.date.map dtFormat).getD [])) ++ acc) []) :=
  c7_blocks c7msgs (by
    intro r hr hne
    simp only [c7msgs, List.mem_cons, List.not_mem_nil, or_false] at hr
    rcases hr with rfl | rfl | rfl
    · exact ⟨⟨2008, 5, 26, 12, 42, 32⟩, rfl, by norm_num⟩
    · exact absurd rfl hne
    · exact ⟨⟨2009, 1, 1, 0, 0, 0⟩, rfl, by norm_num⟩)
